import Mathlib

/-!
# Book catalogue widget (`script.js`) and proxy relay (`server.js`)

A shallow embedding of the two source files and the properties proved about them.

* JavaScript strings are Lean `String`s; `===` on strings is Lean equality.
* The module-level constants imported from `data.js` (`books`, `authors`,
  `BOOKS_PER_PAGE`) are parameters, collected in `Data`.
* `String.prototype.toLowerCase` is a parameter of the search (`lower`): its Unicode
  tables are the host's, not this program's.  `toLowerCaseASCII` is the restriction
  to the letters `A`..`Z`, used for concrete evaluation.
* The host page is a `Document`: one field per hook the script queries, `none` when
  `document.querySelector` returns `null`.
-/

namespace DJS04

/-! ## Host string operations -/

/-- Code points stripped by `String.prototype.trim`: ECMAScript WhiteSpace
(TAB, VT, FF, ZWNBSP and the Unicode space separators) and LineTerminator
(LF, CR, LS, PS). -/
def isWhiteSpace (c : Char) : Bool :=
  decide (c.toNat ∈ [0x09, 0x0A, 0x0B, 0x0C, 0x0D, 0x20, 0xA0, 0x1680,
    0x2000, 0x2001, 0x2002, 0x2003, 0x2004, 0x2005, 0x2006, 0x2007, 0x2008, 0x2009, 0x200A,
    0x2028, 0x2029, 0x202F, 0x205F, 0x3000, 0xFEFF])

/-- Model of `String.prototype.trim`: white space removed from both ends. -/
def trim (s : String) : String :=
  ⟨((s.data.dropWhile isWhiteSpace).reverse.dropWhile isWhiteSpace).reverse⟩

/-- Does `s` start with `t`? -/
def startsWithList : List Char → List Char → Bool
  | _, [] => true
  | [], _ :: _ => false
  | c :: cs, d :: ds => c == d && startsWithList cs ds

/-- Scan of `String.prototype.includes`: try every start position from the left. -/
def includesList : List Char → List Char → Bool
  | [], t => startsWithList [] t
  | c :: cs, t => startsWithList (c :: cs) t || includesList cs t

/-- Model of `s.includes(searchString)`. -/
def includes (s searchString : String) : Bool :=
  includesList s.data searchString.data

/-- Lower-casing restricted to the ASCII letters; every other code point is kept. -/
def toLowerCaseASCII (s : String) : String :=
  ⟨s.data.map Char.toLower⟩

/-! ## Data model (`data.js`) -/

/-- A book record of the static catalogue. -/
structure Book where
  id : String
  title : String
  author : String
  image : String
  description : String
  published : String
  genres : List String
  deriving DecidableEq, Repr

/-- The imports of `script.js` from `data.js` that the modelled functions use.
`authors` is the id-to-name object, as the lookup `authors[id]` of a name. -/
structure Data where
  books : List Book
  authors : String → Option String
  BOOKS_PER_PAGE : Nat

/-- The module-level `state` object (`matches_` is its field `matches`, a reserved word here). -/
structure State where
  page : Nat
  matches_ : List Book
  deriving DecidableEq, Repr

/-! ## Previews -/

/-- The `button.preview` element built by `createBookPreview`. -/
structure Preview where
  dataPreview : String
  ariaLabel : String
  imageSrc : String
  imageAlt : String
  title : String
  author : String
  deriving DecidableEq, Repr

/-- The expression `authors[author] || 'Unknown Author'`: a missing or empty name is falsy. -/
def authorName (authors : String → Option String) (author : String) : String :=
  match authors author with
  | some name => if name = "" then "Unknown Author" else name
  | none => "Unknown Author"

/-- Model of `createBookPreview`. -/
def createBookPreview (book : Book) (authors : String → Option String) : Preview :=
  { dataPreview := book.id
    ariaLabel := "View details for " ++ book.title
    imageSrc := book.image
    imageAlt := "Cover of " ++ book.title
    title := book.title
    author := authorName authors book.author }

/-- Model of `Array.prototype.slice(start, end)` for non-negative integer arguments. -/
def slice {α : Type} (xs : List α) (start stop : Nat) : List α :=
  (xs.take stop).drop start

/-- Model of `appendBookPreviews(books, container, authors, start, end)`: the previews of
`books.slice(start, end)` are appended, in order, to the children of `container`. -/
def appendBookPreviews (books : List Book) (container : List Preview)
    (authors : String → Option String) (start stop : Nat) : List Preview :=
  container ++ (slice books start stop).map (fun book => createBookPreview book authors)

/-! ## The host page -/

/-- The show-more button: the number inside `.list__remaining` and the `disabled` property. -/
structure ListButton where
  remaining : Int
  disabled : Bool
  deriving DecidableEq, Repr

/-- The hooks of the host page that the script reads or writes.  A field is `none` when
`document.querySelector` finds no such element.
`listItems`: children of `[data-list-items]`; `listMessage`: whether `[data-list-message]`
carries the class `list__message_show`; `searchOverlay`, `settingsOverlay`, `listActive`:
the `open` property; `settingsTheme`: the `value` of `[data-settings-theme]`; `listBlur`,
`listImage`: `src`; `listTitle`, `listSubtitle`, `listDescription`: `innerText`;
`style`: the custom properties set on `document.documentElement.style`. -/
structure Document where
  listItems : Option (List Preview)
  listMessage : Option Bool
  listButton : Option ListButton
  searchOverlay : Option Bool
  settingsOverlay : Option Bool
  settingsTheme : Option String
  listActive : Option Bool
  listBlur : Option String
  listImage : Option String
  listTitle : Option String
  listSubtitle : Option String
  listDescription : Option String
  style : String → Option String

/-- The running script: its `state` object and the page it acts on. -/
structure App where
  state : State
  doc : Document

/-! ## Theme -/

/-- The call `style.setProperty(property, value)`. -/
def setProperty (style : String → Option String) (property value : String) :
    String → Option String :=
  fun name => if name = property then some value else style name

/-- Own entries of `themes.night`, in `Object.entries` order. -/
def themeNight : List (String × String) :=
  [("--color-dark", "255, 255, 255"), ("--color-light", "10, 10, 20")]

/-- Own entries of `themes.day`, in `Object.entries` order. -/
def themeDay : List (String × String) :=
  [("--color-dark", "10, 10, 20"), ("--color-light", "255, 255, 255")]

/-- Property names that every object literal inherits from `Object.prototype`.  `themes[name]`
is then a built-in function (for `__proto__`, the prototype object itself): a truthy value
without own enumerable properties. -/
def objectPrototypeKeys : List String :=
  ["constructor", "__defineGetter__", "__defineSetter__", "hasOwnProperty",
   "__lookupGetter__", "__lookupSetter__", "isPrototypeOf", "propertyIsEnumerable",
   "toString", "valueOf", "__proto__", "toLocaleString"]

/-- The entries `Object.entries(themes[theme] || themes.day)`.  `theme` is `none` when the form has no
`theme` field (`undefined`, which indexes the key `"undefined"`). -/
def selectedThemeEntries (theme : Option String) : List (String × String) :=
  match theme with
  | none => themeDay
  | some name =>
    if name = "night" then themeNight
    else if name = "day" then themeDay
    else if name ∈ objectPrototypeKeys then []
    else themeDay

/-- Model of `applyTheme`: every entry of the selected theme is set on the root style. -/
def applyTheme (theme : Option String) (style : String → Option String) :
    String → Option String :=
  (selectedThemeEntries theme).foldl (fun st entry => setProperty st entry.1 entry.2) style

/-! ## Show-more button -/

/-- Model of `updateShowMoreButton`. -/
def updateShowMoreButton (data : Data) (state : State) (doc : Document) : Document :=
  match doc.listButton with
  | none => doc
  | some _ =>
    let remaining : Int :=
      max 0 ((state.matches_.length : Int) - (state.page : Int) * (data.BOOKS_PER_PAGE : Int))
    { doc with listButton := some { remaining := remaining, disabled := decide (remaining < 1) } }

/-! ## Start-up -/

/-- Model of `initializeApp` on the page `doc`; `prefersDark` is the result of the
`prefers-color-scheme: dark` media query.  `state.page` keeps the value 1 of the `state`
literal.  The two `populateSelect` calls fill the search form's select elements, which no
modelled function reads, and are left out. -/
def initializeApp (data : Data) (prefersDark : Bool) (doc : Document) : App :=
  let state : State := { page := 1, matches_ := data.books }
  let doc : Document :=
    match doc.listItems with
    | some children =>
      let children := appendBookPreviews state.matches_ children data.authors 0 data.BOOKS_PER_PAGE
      { doc with listItems := some children }
    | none => doc
  let initialTheme : String := if prefersDark then "night" else "day"
  let doc : Document :=
    match doc.settingsTheme with
    | some _ =>
      { doc with settingsTheme := some initialTheme, style := applyTheme (some initialTheme) doc.style }
    | none => doc
  { state := state, doc := updateShowMoreButton data state doc }

/-! ## Search -/

/-- The fields of the search form, `Object.fromEntries(new FormData(form))`. -/
structure Filters where
  title : String
  author : String
  genre : String
  deriving DecidableEq, Repr

/-- The inner loop of `handleSearchSubmit` over `book.genres`, started with the current
value of `genreMatch`. -/
def genreLoop (genre : String) : List String → Bool → Bool
  | [], genreMatch => genreMatch
  | singleGenre :: rest, genreMatch =>
    if genreMatch then genreMatch
    else genreLoop genre rest (if singleGenre = genre then true else genreMatch)

/-- The condition under which `handleSearchSubmit` pushes `book`. -/
def bookPasses (lower : String → String) (filters : Filters) (book : Book) : Bool :=
  let genreMatch := genreLoop filters.genre book.genres (decide (filters.genre = "any"))
  (decide (trim filters.title = "") || includes (lower book.title) (lower filters.title)) &&
    (decide (filters.author = "any") || decide (book.author = filters.author)) &&
    genreMatch

/-- The outer loop of `handleSearchSubmit` over the catalogue, pushing onto `result`. -/
def searchLoop (lower : String → String) (filters : Filters) :
    List Book → List Book → List Book
  | [], result => result
  | book :: rest, result =>
    if bookPasses lower filters book then searchLoop lower filters rest (result ++ [book])
    else searchLoop lower filters rest result

/-- Model of `handleSearchSubmit`.  When `[data-search-overlay]` is absent the last
statement throws, after every other update has been made. -/
def handleSearchSubmit (data : Data) (lower : String → String) (filters : Filters)
    (app : App) : App :=
  let result := searchLoop lower filters data.books []
  let state : State := { page := 1, matches_ := result }
  let doc : Document :=
    match app.doc.listMessage, app.doc.listItems with
    | some _, some _ =>
      { app.doc with
        listMessage := some (decide (result.length < 1))
        listItems := some (appendBookPreviews result [] data.authors 0 data.BOOKS_PER_PAGE) }
    | _, _ => app.doc
  let doc := updateShowMoreButton data state doc
  { state := state, doc := { doc with searchOverlay := doc.searchOverlay.map (fun _ => false) } }

/-! ## Show more -/

/-- Model of `handleShowMore`. -/
def handleShowMore (data : Data) (app : App) : App :=
  match app.doc.listItems with
  | some children =>
    let children := appendBookPreviews app.state.matches_ children data.authors
      (app.state.page * data.BOOKS_PER_PAGE) ((app.state.page + 1) * data.BOOKS_PER_PAGE)
    let doc : Document := { app.doc with listItems := some children }
    let state : State := { app.state with page := app.state.page + 1 }
    { state := state, doc := updateShowMoreButton data state doc }
  | none => app

/-! ## Detail view -/

/-- A node of the event path: `preview` is `node.dataset.preview`, `none` when the node has
no `dataset` or no `data-preview` attribute. -/
structure PathNode where
  preview : Option String
  deriving DecidableEq, Repr

/-- The loop of `handleBookPreviewClick` over the event path: the first node with a truthy
`dataset.preview` decides `active`; `none` is a falsy `active` (`null` or `undefined`). -/
def findActive (books : List Book) : List PathNode → Option Book
  | [] => none
  | node :: rest =>
    match node.preview with
    | some preview =>
      if preview ≠ "" then books.find? (fun book => decide (book.id = preview))
      else findActive books rest
    | none => findActive books rest

/-- The assignments made for a found book, in source order; the first absent element
stops them, as the assignment to a property of `null` throws. -/
def showActive (data : Data) (getFullYear : String → String) (active : Book)
    (doc : Document) : Document :=
  match doc.listActive with
  | none => doc
  | some _ =>
    let doc := { doc with listActive := some true }
    match doc.listBlur with
    | none => doc
    | some _ =>
      let doc := { doc with listBlur := some active.image }
      match doc.listImage with
      | none => doc
      | some _ =>
        let doc := { doc with listImage := some active.image }
        match doc.listTitle with
        | none => doc
        | some _ =>
          let doc := { doc with listTitle := some active.title }
          match doc.listSubtitle with
          | none => doc
          | some _ =>
            let subtitle :=
              authorName data.authors active.author ++ " (" ++ getFullYear active.published ++ ")"
            let doc := { doc with listSubtitle := some subtitle }
            match doc.listDescription with
            | none => doc
            | some _ => { doc with listDescription := some active.description }

/-- Model of `handleBookPreviewClick`; `getFullYear` is the text of
`new Date(published).getFullYear()`. -/
def handleBookPreviewClick (data : Data) (getFullYear : String → String)
    (path : List PathNode) (app : App) : App :=
  match findActive data.books path with
  | some active => { app with doc := showActive data getFullYear active app.doc }
  | none => app

/-- Model of `handleThemeSubmit`; `theme` is the form's `theme` field. -/
def handleThemeSubmit (theme : Option String) (app : App) : App :=
  let doc := { app.doc with style := applyTheme theme app.doc.style }
  { app with doc := { doc with settingsOverlay := doc.settingsOverlay.map (fun _ => false) } }

/-! ## Runs of the widget -/

/-- The two user actions that change the match set or the page. -/
inductive Action where
  | search (filters : Filters)
  | showMore
  deriving DecidableEq, Repr

/-- One handler invocation. -/
def step (data : Data) (lower : String → String) (app : App) : Action → App
  | Action.search filters => handleSearchSubmit data lower filters app
  | Action.showMore => handleShowMore data app

/-- The app after start-up on `doc` followed by the handler invocations `actions`. -/
def run (data : Data) (lower : String → String) (prefersDark : Bool) (doc : Document)
    (actions : List Action) : App :=
  actions.foldl (step data lower) (initializeApp data prefersDark doc)

/-! ## Proxy relay (`server.js`) -/

/-- A JSON value as held by the relay after parsing.  A number is kept as its JSON text:
the relay never computes with one. -/
inductive Json where
  | null
  | bool (b : Bool)
  | number (text : String)
  | string (s : String)
  | array (items : List Json)
  | object (members : List (String × Json))

/-- The text handed to `fetch` as `body`: `JSON.stringify(value)`, kept symbolic. -/
inductive BodyText where
  | stringify (value : Json)

/-- The arguments of the outbound `fetch` call. -/
structure FetchCall where
  url : String
  method : String
  headers : List (String × String)
  body : BodyText

/-- The upstream response as far as the handler uses it: `json` is the outcome of
`response.json()`, the parsed body or the rejection raised for a body that is not JSON.
`status` is the upstream HTTP status, which the handler never reads. -/
structure UpstreamResponse where
  status : Nat
  json : Except String Json

/-- The upstream world: what `await fetch(...)` produces, a response or a thrown
network error. -/
abbrev Fetch := FetchCall → Except String UpstreamResponse

/-- The Express response object: status code (200 until `status` is called), the headers
set by the handler, and the value sent with `json`. -/
structure Res where
  statusCode : Nat
  headers : List (String × String)
  body : Option Json

/-- The fresh response object passed to the handler. -/
def Res.fresh : Res :=
  { statusCode := 200, headers := [], body := none }

/-- The call `res.setHeader(name, value)`. -/
def Res.setHeader (res : Res) (name value : String) : Res :=
  { res with headers := res.headers ++ [(name, value)] }

/-- The call `res.status(code)`. -/
def Res.status (res : Res) (code : Nat) : Res :=
  { res with statusCode := code }

/-- The call `res.json(value)`. -/
def Res.json (res : Res) (value : Json) : Res :=
  { res with body := some value }

/-- What one request leaves behind: the response sent and the lines written with
`console.error`. -/
structure Outcome where
  res : Res
  log : List (String × String)

/-- The outbound call built from the request body. -/
def upstreamCall (reqBody : Json) : FetchCall :=
  { url := "https://extensions.aitopia.ai/ai/prompts"
    method := "POST"
    headers := [("Content-Type", "application/json")]
    body := BodyText.stringify reqBody }

/-- The `try` block of the route handler; an `Except.error` is a thrown exception or a
rejected promise. -/
def tryBlock (fetch : Fetch) (reqBody : Json) (res : Res) : Except String Res := do
  let response ← fetch (upstreamCall reqBody)
  let data ← response.json
  let res := res.setHeader "Access-Control-Allow-Origin" "*"
  let res := res.setHeader "Access-Control-Allow-Headers"
    "Origin, X-Requested-With, Content-Type, Accept"
  pure (res.json data)

/-- The body sent by the `catch` block. -/
def proxyError : Json :=
  Json.object [("error", Json.string "Proxy error")]

/-- Model of the handler of `POST /api/prompts`: `reqBody` is `req.body`. -/
def postApiPrompts (fetch : Fetch) (reqBody : Json) : Outcome :=
  match tryBlock fetch reqBody Res.fresh with
  | Except.ok res => { res := res, log := [] }
  | Except.error error =>
    { res := (Res.fresh.status 500).json proxyError
      log := [("Error proxying request:", error)] }

/-! ## Concrete inputs -/

/-- A page with every hook present, empty containers and nothing shown. -/
def fullPage : Document :=
  { listItems := some []
    listMessage := some false
    listButton := some { remaining := 0, disabled := false }
    searchOverlay := some false
    settingsOverlay := some false
    settingsTheme := some "day"
    listActive := some false
    listBlur := some ""
    listImage := some ""
    listTitle := some ""
    listSubtitle := some ""
    listDescription := some ""
    style := fun _ => none }

/-- A catalogue entry titled "Dune Messiah". -/
def duneMessiah : Book :=
  { id := "b1", title := "Dune Messiah", author := "a1", image := "dune.jpg",
    description := "Second book of the Dune series", published := "1969-10-15",
    genres := ["g1", "g2"] }

/-- A catalogue entry by another author, in another genre. -/
def emma : Book :=
  { id := "b2", title := "Emma", author := "a2", image := "emma.jpg",
    description := "A novel", published := "1815-12-23", genres := ["g3"] }

/-- A two-book catalogue shown one book per page. -/
def smallData : Data :=
  { books := [duneMessiah, emma]
    authors := fun id =>
      if id = "a1" then some "Frank Herbert" else if id = "a2" then some "Jane Austen" else none
    BOOKS_PER_PAGE := 1 }

/-- The page `fullPage` without the `[data-list-message]` element. -/
def pageWithoutMessage : Document :=
  { fullPage with listMessage := none }

/-- Forty-two books with distinct ids, shown thirty per page. -/
def fortyTwoData : Data :=
  { books := (List.range 42).map (fun i => { emma with id := "book-" ++ toString i })
    authors := smallData.authors
    BOOKS_PER_PAGE := 30 }

/-! ## Rendered window -/

/-- The window of the specification: the previews of `state.matches` from index 0 to
`min(state.matches.length, state.page * BOOKS_PER_PAGE)`. -/
def renderedWindow (data : Data) (state : State) : List Preview :=
  (slice state.matches_ 0 (min state.matches_.length (state.page * data.BOOKS_PER_PAGE))).map
    (fun book => createBookPreview book data.authors)

/-- The previews of the chunk `[page * BOOKS_PER_PAGE, (page + 1) * BOOKS_PER_PAGE)`. -/
def nextChunk (data : Data) (state : State) : List Preview :=
  (slice state.matches_ (state.page * data.BOOKS_PER_PAGE)
    ((state.page + 1) * data.BOOKS_PER_PAGE)).map (fun book => createBookPreview book data.authors)

/-- The list container shows exactly the window of the current state, and the message
element exists. -/
def WindowInv (data : Data) (app : App) : Prop :=
  app.doc.listItems = some (renderedWindow data app.state) ∧ app.doc.listMessage.isSome = true

/-- The event path of a click inside the preview of the book `b1`: the image, the
preview button, the list container and the document. -/
def clickOnDune : List PathNode :=
  [{ preview := none }, { preview := some "b1" }, { preview := none }, { preview := none }]

/-- An upstream that answers 404 with a JSON body. -/
def notFoundUpstream : Fetch :=
  fun _ => Except.ok
    { status := 404, json := Except.ok (Json.object [("message", Json.string "Not Found")]) }

/-- An upstream that answers 200 with the JSON body `\x7b"id":"abc"\x7d`. -/
def abcUpstream : Fetch :=
  fun _ => Except.ok { status := 200, json := Except.ok (Json.object [("id", Json.string "abc")]) }

/-- An upstream that cannot be reached. -/
def unreachableUpstream : Fetch :=
  fun _ => Except.error "request to https://extensions.aitopia.ai/ai/prompts failed"

/-! ## Specification predicates -/

/-- The string `t` occurs in `s` as a contiguous substring. -/
def IsSubstring (t s : String) : Prop :=
  ∃ before after : List Char, s.data = before ++ t.data ++ after

/-- Every character of `s` is white space: `s` is empty after trimming. -/
def IsBlank (s : String) : Prop :=
  ∀ c ∈ s.data, isWhiteSpace c = true

/-- The three-part condition of the catalogue filter, as the specification words it. -/
def Satisfies (lower : String → String) (filters : Filters) (book : Book) : Prop :=
  (trim filters.title = "" ∨ IsSubstring (lower filters.title) (lower book.title)) ∧
  (filters.author = "any" ∨ book.author = filters.author) ∧
  (filters.genre = "any" ∨ filters.genre ∈ book.genres)

/-- The identifier taken from a click: the first non-empty `data-preview` value along the
event path, if any. -/
def clickedPreviewId (path : List PathNode) : Option String :=
  (path.filterMap (fun node => node.preview)).find? (fun preview => decide (preview ≠ ""))

/-- The response of the `catch` block. -/
def proxyErrorResponse : Res :=
  { statusCode := 500, headers := [], body := some proxyError }

/-! ## Lemmas on the string operations -/

theorem startsWithList_iff (s t : List Char) :
    startsWithList s t = true ↔ ∃ rest, s = t ++ rest := by
  induction t generalizing s with
  | nil => simp [startsWithList]
  | cons d ds ih =>
    cases s with
    | nil => simp [startsWithList]
    | cons c cs =>
      simp only [startsWithList, Bool.and_eq_true, beq_iff_eq, ih, List.cons_append,
        List.cons.injEq]
      constructor
      · rintro ⟨rfl, rest, rfl⟩
        exact ⟨rest, rfl, rfl⟩
      · rintro ⟨rest, rfl, rfl⟩
        exact ⟨rfl, rest, rfl⟩

theorem includesList_iff (s t : List Char) :
    includesList s t = true ↔ ∃ before after, s = before ++ t ++ after := by
  induction s with
  | nil =>
    simp only [includesList, startsWithList_iff]
    constructor
    · rintro ⟨rest, h⟩
      exact ⟨[], rest, by simpa using h⟩
    · rintro ⟨before, after, h⟩
      have h1 : before = [] ∧ t = [] ∧ after = [] := by
        have := h.symm
        simp only [List.append_assoc, List.append_eq_nil] at this
        exact this
      obtain ⟨_, rfl, _⟩ := h1
      exact ⟨[], rfl⟩
  | cons c cs ih =>
    simp only [includesList, Bool.or_eq_true, startsWithList_iff, ih]
    constructor
    · rintro (⟨rest, h⟩ | ⟨before, after, h⟩)
      · exact ⟨[], rest, by simpa using h⟩
      · exact ⟨c :: before, after, by simp [h]⟩
    · rintro ⟨before, after, h⟩
      cases before with
      | nil => exact Or.inl ⟨after, by simpa using h⟩
      | cons b bs =>
        simp only [List.cons_append, List.cons.injEq] at h
        exact Or.inr ⟨bs, after, h.2⟩

theorem includes_iff (s t : String) : includes s t = true ↔ IsSubstring t s :=
  includesList_iff s.data t.data

theorem dropWhile_eq_nil_iff_all (p : Char → Bool) (l : List Char) :
    l.dropWhile p = [] ↔ ∀ c ∈ l, p c = true := by
  induction l with
  | nil => simp
  | cons a l ih =>
    by_cases h : p a = true
    · simp [List.dropWhile_cons, h, ih]
    · simp [List.dropWhile_cons, h]

theorem trim_eq_empty_iff (s : String) : trim s = "" ↔ IsBlank s := by
  unfold trim IsBlank
  constructor
  · intro h
    have h1 : ((s.data.dropWhile isWhiteSpace).reverse.dropWhile isWhiteSpace).reverse = [] :=
      congrArg String.data h
    rw [List.reverse_eq_nil_iff, dropWhile_eq_nil_iff_all] at h1
    intro c hc
    by_cases hw : isWhiteSpace c = true
    · exact hw
    · have hne : s.data.dropWhile isWhiteSpace ≠ [] := by
        intro h0
        exact hw ((dropWhile_eq_nil_iff_all _ _).1 h0 c hc)
      obtain ⟨a, l, hal⟩ := List.exists_cons_of_ne_nil hne
      have ha : isWhiteSpace a = true := h1 a (by simp [hal])
      have hhead := List.head_dropWhile_not isWhiteSpace s.data hne
      simp [hal] at hhead
      simp [hhead] at ha
  · intro h
    have h0 : s.data.dropWhile isWhiteSpace = [] := (dropWhile_eq_nil_iff_all _ _).2 h
    simp [h0]

theorem genreLoop_eq (genre : String) (genres : List String) (genreMatch : Bool) :
    genreLoop genre genres genreMatch = (genreMatch || decide (genre ∈ genres)) := by
  induction genres generalizing genreMatch with
  | nil => simp [genreLoop]
  | cons g rest ih =>
    cases genreMatch with
    | true => simp [genreLoop]
    | false =>
      by_cases hg : g = genre
      · subst hg
        simp [genreLoop, ih]
      · have hg2 : ¬ genre = g := fun h => hg h.symm
        simp [genreLoop, ih, hg, hg2]

theorem bookPasses_iff (lower : String → String) (filters : Filters) (book : Book) :
    bookPasses lower filters book = true ↔ Satisfies lower filters book := by
  simp only [bookPasses, Satisfies, genreLoop_eq, Bool.and_eq_true, Bool.or_eq_true,
    decide_eq_true_eq, includes_iff, and_assoc]

theorem searchLoop_eq (lower : String → String) (filters : Filters) (books result : List Book) :
    searchLoop lower filters books result = result ++ books.filter (bookPasses lower filters) := by
  induction books generalizing result with
  | nil => simp [searchLoop]
  | cons b rest ih =>
    by_cases h : bookPasses lower filters b = true
    · simp [searchLoop, h, ih]
    · simp [searchLoop, h, ih]

theorem handleSearchSubmit_matches (data : Data) (lower : String → String) (filters : Filters)
    (app : App) :
    (handleSearchSubmit data lower filters app).state.matches_ =
      data.books.filter (bookPasses lower filters) := by
  simp [handleSearchSubmit, searchLoop_eq]

theorem handleSearchSubmit_page (data : Data) (lower : String → String) (filters : Filters)
    (app : App) :
    (handleSearchSubmit data lower filters app).state.page = 1 := by
  simp [handleSearchSubmit]

/-! ## Search: the match set -/

/-- C1: the match set stored by `handleSearchSubmit` is the catalogue filtered, in catalogue
order and without additions, omissions or repetitions, by the conjunction of the title,
author and genre conditions; a book lacking the requested genre is never in it. -/
theorem handleSearchSubmit_matches_spec (data : Data) (lower : String → String)
    (filters : Filters) (app : App) :
    (handleSearchSubmit data lower filters app).state.matches_ =
        data.books.filter
          (fun book => @decide (Satisfies lower filters book) (Classical.propDecidable _)) ∧
      ∀ book : Book, filters.genre ≠ "any" → filters.genre ∉ book.genres →
        book ∉ (handleSearchSubmit data lower filters app).state.matches_ := by
  rw [handleSearchSubmit_matches]
  constructor
  · apply List.filter_congr
    intro book _
    rw [Bool.eq_iff_iff, bookPasses_iff]
    simp
  · intro book hany hgenre hmem
    have hpass := (List.mem_filter.1 hmem).2
    rw [bookPasses_iff] at hpass
    rcases hpass.2.2 with h | h
    · exact hany h
    · exact hgenre h

/-- C1 at a concrete search: on the two-book catalogue the genre `g3` is requested with a
title and author that match "Dune Messiah", whose genres lack `g3`. -/
theorem handleSearchSubmit_matches_spec_witness :
    duneMessiah ∉ (handleSearchSubmit smallData toLowerCaseASCII
      { title := "dune", author := "a1", genre := "g3" }
      (initializeApp smallData false fullPage)).state.matches_ :=
  (handleSearchSubmit_matches_spec smallData toLowerCaseASCII
      { title := "dune", author := "a1", genre := "g3" }
      (initializeApp smallData false fullPage)).2 duneMessiah (by decide) (by decide)

/-- C7: a search with a blank title (empty or white space only), author `any` and genre
`any` stores the whole catalogue, in its order, as the match set and resets the page to 1. -/
theorem handleSearchSubmit_no_constraint (data : Data) (lower : String → String)
    (filters : Filters) (app : App) (htitle : IsBlank filters.title)
    (hauthor : filters.author = "any") (hgenre : filters.genre = "any") :
    (handleSearchSubmit data lower filters app).state.matches_ = data.books ∧
      (handleSearchSubmit data lower filters app).state.page = 1 := by
  refine ⟨?_, handleSearchSubmit_page data lower filters app⟩
  rw [handleSearchSubmit_matches]
  apply List.filter_eq_self.2
  intro book _
  rw [bookPasses_iff]
  exact ⟨Or.inl ((trim_eq_empty_iff _).2 htitle), Or.inl hauthor, Or.inl hgenre⟩

/-- C7 at a concrete search: the title is a space followed by a tab, after one show-more. -/
theorem handleSearchSubmit_no_constraint_witness :
    IsBlank " \t" ∧
    (handleSearchSubmit smallData toLowerCaseASCII { title := " \t", author := "any", genre := "any" }
      (handleShowMore smallData (initializeApp smallData false fullPage))).state.matches_
        = [duneMessiah, emma] ∧
    (handleSearchSubmit smallData toLowerCaseASCII { title := " \t", author := "any", genre := "any" }
      (handleShowMore smallData (initializeApp smallData false fullPage))).state.page = 1 :=
  ⟨by unfold IsBlank; decide,
   handleSearchSubmit_no_constraint smallData toLowerCaseASCII
     { title := " \t", author := "any", genre := "any" }
     (handleShowMore smallData (initializeApp smallData false fullPage))
     (by unfold IsBlank; decide) rfl rfl⟩

/-! ## Search: letter case -/

theorem renderedWindow_eq (data : Data) (state : State) :
    renderedWindow data state =
      (state.matches_.take (state.page * data.BOOKS_PER_PAGE)).map
        (fun book => createBookPreview book data.authors) := by
  unfold renderedWindow slice
  rw [List.drop_zero]
  congr 1
  rcases Nat.le_total state.matches_.length (state.page * data.BOOKS_PER_PAGE) with h | h
  · rw [Nat.min_eq_left h, List.take_of_length_le h, List.take_of_length_le (le_refl _)]
  · rw [Nat.min_eq_right h]

theorem take_succ_page {α : Type} (xs : List α) (page size : Nat) :
    xs.take ((page + 1) * size) = xs.take (page * size) ++ slice xs (page * size) ((page + 1) * size) := by
  unfold slice
  have h : page * size ≤ (page + 1) * size := Nat.mul_le_mul_right _ (Nat.le_succ _)
  conv_lhs => rw [← List.take_append_drop (page * size) (xs.take ((page + 1) * size))]
  rw [List.take_take, Nat.min_eq_left h]

theorem renderedWindow_succ (data : Data) (state : State) :
    renderedWindow data { state with page := state.page + 1 } =
      renderedWindow data state ++ nextChunk data state := by
  rw [renderedWindow_eq, renderedWindow_eq]
  unfold nextChunk
  simp only [take_succ_page, List.map_append]

theorem updateShowMoreButton_listItems (data : Data) (state : State) (doc : Document) :
    (updateShowMoreButton data state doc).listItems = doc.listItems := by
  unfold updateShowMoreButton
  cases doc.listButton <;> rfl

theorem updateShowMoreButton_listMessage (data : Data) (state : State) (doc : Document) :
    (updateShowMoreButton data state doc).listMessage = doc.listMessage := by
  unfold updateShowMoreButton
  cases doc.listButton <;> rfl

theorem handleShowMore_of_listItems (data : Data) (app : App) (children : List Preview)
    (h : app.doc.listItems = some children) :
    (handleShowMore data app).state = { app.state with page := app.state.page + 1 } ∧
      (handleShowMore data app).doc.listItems = some (children ++ nextChunk data app.state) ∧
      (handleShowMore data app).doc.listMessage = app.doc.listMessage := by
  unfold handleShowMore
  rw [h]
  simp only [updateShowMoreButton_listItems, updateShowMoreButton_listMessage]
  simp [appendBookPreviews, nextChunk]

theorem windowInv_initializeApp (data : Data) (prefersDark : Bool) (doc : Document)
    (hitems : doc.listItems = some []) (hmessage : doc.listMessage.isSome = true) :
    WindowInv data (initializeApp data prefersDark doc) := by
  unfold WindowInv initializeApp
  simp only [updateShowMoreButton_listItems, updateShowMoreButton_listMessage, hitems]
  constructor
  · cases doc.settingsTheme <;>
      simp [renderedWindow_eq, appendBookPreviews, slice]
  · cases doc.settingsTheme <;> simpa using hmessage

theorem windowInv_handleSearchSubmit (data : Data) (lower : String → String)
    (filters : Filters) (app : App) (h : WindowInv data app) :
    WindowInv data (handleSearchSubmit data lower filters app) := by
  obtain ⟨hitems, hmessage⟩ := h
  obtain ⟨shown, hshown⟩ := Option.isSome_iff_exists.1 hmessage
  unfold WindowInv handleSearchSubmit
  simp only [updateShowMoreButton_listItems, updateShowMoreButton_listMessage, hitems, hshown]
  constructor
  · simp [renderedWindow_eq, appendBookPreviews, slice]
  · simp

theorem windowInv_handleShowMore (data : Data) (app : App) (h : WindowInv data app) :
    WindowInv data (handleShowMore data app) := by
  obtain ⟨hitems, hmessage⟩ := h
  obtain ⟨hstate, hlist, hmsg⟩ := handleShowMore_of_listItems data app _ hitems
  refine ⟨?_, by rw [hmsg]; exact hmessage⟩
  rw [hlist, hstate, renderedWindow_succ]

theorem windowInv_foldl (data : Data) (lower : String → String) (actions : List Action)
    (app : App) (h : WindowInv data app) :
    WindowInv data (actions.foldl (step data lower) app) := by
  induction actions generalizing app with
  | nil => exact h
  | cons action rest ih =>
    apply ih
    cases action with
    | search filters => exact windowInv_handleSearchSubmit data lower filters app h
    | showMore => exact windowInv_handleShowMore data app h

/-- C2 (amended): on a page whose list container exists and is empty when the script starts
and which has the list message element, after start-up and any sequence of search submits and
show-more calls the list container holds exactly the previews of `state.matches` from index 0
to `min(length, page * BOOKS_PER_PAGE)`; a further show-more appends the next chunk to that
list, so the window only grows with the page. -/
theorem rendered_window_of_run (data : Data) (lower : String → String) (prefersDark : Bool)
    (doc : Document) (actions : List Action)
    (hitems : doc.listItems = some []) (hmessage : doc.listMessage.isSome = true) :
    (run data lower prefersDark doc actions).doc.listItems =
        some (renderedWindow data (run data lower prefersDark doc actions).state) ∧
      (handleShowMore data (run data lower prefersDark doc actions)).state.page =
        (run data lower prefersDark doc actions).state.page + 1 ∧
      (handleShowMore data (run data lower prefersDark doc actions)).doc.listItems =
        some (renderedWindow data (run data lower prefersDark doc actions).state ++
          nextChunk data (run data lower prefersDark doc actions).state) := by
  have hinv : WindowInv data (run data lower prefersDark doc actions) :=
    windowInv_foldl data lower actions _ (windowInv_initializeApp data prefersDark doc hitems hmessage)
  obtain ⟨hstate, hlist, _⟩ := handleShowMore_of_listItems data _ _ hinv.1
  exact ⟨hinv.1, by rw [hstate], hlist⟩

/-- C2 on the two-book catalogue, one book per page: show more, search "e", show more. -/
theorem rendered_window_of_run_witness :
    (run smallData toLowerCaseASCII false fullPage
        [Action.showMore, Action.search { title := "e", author := "any", genre := "any" },
          Action.showMore]).doc.listItems =
      some (renderedWindow smallData (run smallData toLowerCaseASCII false fullPage
        [Action.showMore, Action.search { title := "e", author := "any", genre := "any" },
          Action.showMore]).state) :=
  (rendered_window_of_run smallData toLowerCaseASCII false fullPage
    [Action.showMore, Action.search { title := "e", author := "any", genre := "any" },
      Action.showMore] rfl rfl).1

/-- C2 as stated fails on a page without `[data-list-message]`: a search for "emma" stores the
match set `[emma]` with page 1, but the container is not re-rendered and still shows the
preview of "Dune Messiah" placed there at start-up. -/
theorem rendered_window_counterexample :
    (run smallData toLowerCaseASCII false pageWithoutMessage
        [Action.search { title := "emma", author := "any", genre := "any" }]).state =
      { page := 1, matches_ := [emma] } ∧
    (run smallData toLowerCaseASCII false pageWithoutMessage
        [Action.search { title := "emma", author := "any", genre := "any" }]).doc.listItems =
      some [createBookPreview duneMessiah smallData.authors] ∧
    (run smallData toLowerCaseASCII false pageWithoutMessage
        [Action.search { title := "emma", author := "any", genre := "any" }]).doc.listItems ≠
      some (renderedWindow smallData
        (run smallData toLowerCaseASCII false pageWithoutMessage
          [Action.search { title := "emma", author := "any", genre := "any" }]).state) := by
  decide

theorem updateShowMoreButton_listButton (data : Data) (state : State) (doc : Document)
    (button : ListButton) (h : doc.listButton = some button) :
    (updateShowMoreButton data state doc).listButton =
      some { remaining := max 0 ((state.matches_.length : Int) -
                (state.page : Int) * (data.BOOKS_PER_PAGE : Int))
             disabled := decide (max 0 ((state.matches_.length : Int) -
                (state.page : Int) * (data.BOOKS_PER_PAGE : Int)) < 1) } := by
  unfold updateShowMoreButton
  rw [h]

/-- C9: when the show-more button exists, `updateShowMoreButton` shows the remaining count
`max(0, n - p * BOOKS_PER_PAGE)` and disables the button exactly when
`p * BOOKS_PER_PAGE >= n`; with 42 matches and page size 30 that is 12, enabled, on page 1
and 0, disabled, on page 2. -/
theorem updateShowMoreButton_spec (data : Data) (state : State) (doc : Document)
    (button : ListButton) (hbutton : doc.listButton = some button) :
    (∃ updated : ListButton,
      (updateShowMoreButton data state doc).listButton = some updated ∧
      updated.remaining =
        ((state.matches_.length - state.page * data.BOOKS_PER_PAGE : Nat) : Int) ∧
      (updated.disabled = true ↔ state.page * data.BOOKS_PER_PAGE ≥ state.matches_.length)) ∧
    (updateShowMoreButton fortyTwoData { page := 1, matches_ := fortyTwoData.books }
        fullPage).listButton = some { remaining := 12, disabled := false } ∧
    (updateShowMoreButton fortyTwoData { page := 2, matches_ := fortyTwoData.books }
        fullPage).listButton = some { remaining := 0, disabled := true } := by
  refine ⟨⟨_, updateShowMoreButton_listButton data state doc button hbutton, ?_, ?_⟩,
    by decide, by decide⟩
  · simp only
    omega
  · simp only [decide_eq_true_eq]
    omega

/-- C9 on the page with every hook, for the two-book catalogue on page 1. -/
theorem updateShowMoreButton_spec_witness :
    ∃ updated : ListButton,
      (updateShowMoreButton smallData { page := 1, matches_ := smallData.books }
        fullPage).listButton = some updated ∧
      updated.remaining = ((2 - 1 * 1 : Nat) : Int) ∧
      (updated.disabled = true ↔ 1 * 1 ≥ 2) :=
  (updateShowMoreButton_spec smallData { page := 1, matches_ := smallData.books } fullPage
    { remaining := 0, disabled := false } rfl).1

theorem findActive_eq (books : List Book) (path : List PathNode) :
    findActive books path =
      match clickedPreviewId path with
      | some id => books.find? (fun book => decide (book.id = id))
      | none => none := by
  induction path with
  | nil => rfl
  | cons node rest ih =>
    rcases node with ⟨preview⟩
    cases preview with
    | none => simpa [findActive, clickedPreviewId] using ih
    | some p =>
      by_cases hp : p = ""
      · subst hp
        simpa [findActive, clickedPreviewId] using ih
      · simp [findActive, clickedPreviewId, hp]

/-- C5: for the identifier `id` taken from a click, the lookup of `handleBookPreviewClick`
is the search of the full catalogue for the first book with exactly that id: a result is a
catalogue book with id `id`, a result exists whenever the catalogue has such a book, the
page then shows that book, and neither depends on `state`; when no catalogue book has the
id the lookup finds nothing and the handler leaves everything as it was. -/
theorem detail_lookup_spec (data : Data) (getFullYear : String → String)
    (path : List PathNode) (app : App) (id : String) (hid : clickedPreviewId path = some id) :
    findActive data.books path = data.books.find? (fun book => decide (book.id = id)) ∧
    (∀ book : Book, findActive data.books path = some book →
      book ∈ data.books ∧ book.id = id ∧
      (handleBookPreviewClick data getFullYear path app).doc =
        showActive data getFullYear book app.doc) ∧
    ((∃ book ∈ data.books, book.id = id) → (findActive data.books path).isSome = true) ∧
    (∀ state : State,
      (handleBookPreviewClick data getFullYear path { app with state := state }).doc =
        (handleBookPreviewClick data getFullYear path app).doc) ∧
    ((∀ book ∈ data.books, book.id ≠ id) →
      findActive data.books path = none ∧
      handleBookPreviewClick data getFullYear path app = app) := by
  have hfind : findActive data.books path =
      data.books.find? (fun book => decide (book.id = id)) := by
    rw [findActive_eq, hid]
  refine ⟨hfind, ?_, ?_, ?_, ?_⟩
  · intro book hbook
    rw [hfind] at hbook
    refine ⟨List.mem_of_find?_eq_some hbook, by simpa using List.find?_some hbook, ?_⟩
    unfold handleBookPreviewClick
    rw [hfind, hbook]
  · rintro ⟨book, hmem, hbid⟩
    rw [hfind, List.find?_isSome]
    exact ⟨book, hmem, by simpa using hbid⟩
  · intro state
    unfold handleBookPreviewClick
    cases findActive data.books path <;> rfl
  · intro hnone
    have hnot : findActive data.books path = none := by
      rw [hfind, List.find?_eq_none]
      intro book hmem
      simpa using hnone book hmem
    refine ⟨hnot, ?_⟩
    unfold handleBookPreviewClick
    rw [hnot]

/-- C5 after a search that matches nothing: a click on the preview of `b1` still finds
"Dune Messiah" in the catalogue. -/
theorem detail_lookup_spec_witness :
    (handleSearchSubmit smallData toLowerCaseASCII
      { title := "zzz", author := "any", genre := "any" }
      (initializeApp smallData false fullPage)).state.matches_ = [] ∧
    findActive smallData.books clickOnDune = some duneMessiah ∧
    findActive smallData.books clickOnDune =
      smallData.books.find? (fun book => decide (book.id = "b1")) :=
  ⟨by decide, by decide,
   (detail_lookup_spec smallData (fun published => published.take 4) clickOnDune
      (handleSearchSubmit smallData toLowerCaseASCII
        { title := "zzz", author := "any", genre := "any" }
        (initializeApp smallData false fullPage)) "b1" (by decide)).1⟩

/-! ## Theme -/

theorem applyTheme_values (theme : Option String) (style : String → Option String) :
    (theme = some "night" →
      applyTheme theme style "--color-dark" = some "255, 255, 255" ∧
      applyTheme theme style "--color-light" = some "10, 10, 20") ∧
    (theme = some "day" →
      applyTheme theme style "--color-dark" = some "10, 10, 20" ∧
      applyTheme theme style "--color-light" = some "255, 255, 255") ∧
    ((∀ name, theme = some name → name ∉ objectPrototypeKeys) →
      theme ≠ some "night" → applyTheme theme style = applyTheme (some "day") style) := by
  refine ⟨?_, ?_, ?_⟩
  · rintro rfl
    exact ⟨rfl, rfl⟩
  · rintro rfl
    exact ⟨rfl, rfl⟩
  · intro hkeys hnight
    cases theme with
    | none => rfl
    | some name =>
      have h1 : name ≠ "night" := fun h => hnight (by rw [h])
      have h2 : name ∉ objectPrototypeKeys := hkeys name rfl
      unfold applyTheme selectedThemeEntries
      by_cases h3 : name = "day"
      · simp [h3]
      · simp [h1, h2, h3]

/-- C10 at the theme value `"constructor"`: `themes[theme]` is the inherited `Object`
function, so no variable is set and the night colours stay in place, where the theme `"day"`
sets the day colours. -/
theorem applyTheme_inherited_key :
    applyTheme (some "constructor") (applyTheme (some "night") (fun _ => none)) "--color-dark" =
      some "255, 255, 255" ∧
    applyTheme (some "constructor") (applyTheme (some "night") (fun _ => none)) "--color-light" =
      some "10, 10, 20" ∧
    applyTheme (some "day") (applyTheme (some "night") (fun _ => none)) "--color-dark" =
      some "10, 10, 20" ∧
    applyTheme (some "day") (applyTheme (some "night") (fun _ => none)) "--color-light" =
      some "255, 255, 255" ∧
    applyTheme (some "constructor") (fun _ => none) "--color-dark" = none := by
  decide

/-! ## Proxy relay -/

theorem postApiPrompts_of_throw (fetch : Fetch) (reqBody : Json) (error : String)
    (h : tryBlock fetch reqBody Res.fresh = Except.error error) :
    postApiPrompts fetch reqBody =
      { res := proxyErrorResponse, log := [("Error proxying request:", error)] } := by
  unfold postApiPrompts
  rw [h]
  rfl

theorem tryBlock_of_json (fetch : Fetch) (reqBody data : Json) (response : UpstreamResponse)
    (hfetch : fetch (upstreamCall reqBody) = Except.ok response)
    (hjson : response.json = Except.ok data) :
    tryBlock fetch reqBody Res.fresh = Except.ok
      { statusCode := 200
        headers := [("Access-Control-Allow-Origin", "*"),
          ("Access-Control-Allow-Headers", "Origin, X-Requested-With, Content-Type, Accept")]
        body := some data } := by
  unfold tryBlock
  rw [hfetch]
  simp only [bind, Except.bind, hjson]
  rfl

/-- C4 (amended): when the fetch throws, or the upstream body is not valid JSON, the relay
answers with status 500, no handler-set header and the body `\x7b"error":"Proxy error"\x7d`,
whatever the error was; an upstream answer whose body is valid JSON is relayed with status
200 whatever the upstream status was. -/
theorem relay_failure (fetch : Fetch) (reqBody : Json) :
    (∀ error : String, fetch (upstreamCall reqBody) = Except.error error →
      (postApiPrompts fetch reqBody).res = proxyErrorResponse) ∧
    (∀ (response : UpstreamResponse) (error : String),
      fetch (upstreamCall reqBody) = Except.ok response → response.json = Except.error error →
      (postApiPrompts fetch reqBody).res = proxyErrorResponse) ∧
    (∀ (response : UpstreamResponse) (data : Json),
      fetch (upstreamCall reqBody) = Except.ok response → response.json = Except.ok data →
      (postApiPrompts fetch reqBody).res.statusCode = 200 ∧
      (postApiPrompts fetch reqBody).res.body = some data) := by
  refine ⟨?_, ?_, ?_⟩
  · intro error hfetch
    rw [postApiPrompts_of_throw fetch reqBody error]
    unfold tryBlock
    rw [hfetch]
    rfl
  · intro response error hfetch hjson
    rw [postApiPrompts_of_throw fetch reqBody error]
    unfold tryBlock
    rw [hfetch]
    simp only [bind, Except.bind, hjson]
  · intro response data hfetch hjson
    unfold postApiPrompts
    rw [tryBlock_of_json fetch reqBody data response hfetch hjson]
    exact ⟨rfl, rfl⟩

/-- C4 for an upstream that cannot be reached. -/
theorem relay_failure_witness :
    (postApiPrompts unreachableUpstream (Json.object [])).res = proxyErrorResponse :=
  (relay_failure unreachableUpstream (Json.object [])).1
    "request to https://extensions.aitopia.ai/ai/prompts failed" rfl

/-- C4 as stated fails for a non-2xx answer: the upstream answers 404 with a JSON body, and
the relay responds with status 200 and that body. -/
theorem relay_failure_counterexample :
    (notFoundUpstream (upstreamCall (Json.object []))).map (fun response => response.status) =
      Except.ok 404 ∧
    (postApiPrompts notFoundUpstream (Json.object [])).res.statusCode = 200 ∧
    (postApiPrompts notFoundUpstream (Json.object [])).res.statusCode ≠ 500 ∧
    (postApiPrompts notFoundUpstream (Json.object [])).res.body =
      some (Json.object [("message", Json.string "Not Found")]) :=
  ⟨rfl, rfl, by decide, rfl⟩

/-- C6: when the upstream call succeeds with the JSON value `data`, the relay has sent a POST
with `Content-Type: application/json` whose body is the serialised request body, and responds
with status 200, body `data` and the two CORS headers; an upstream `\x7b"id":"abc"\x7d` comes
back as `\x7b"id":"abc"\x7d` with status 200. -/
theorem relay_success (fetch : Fetch) (reqBody data : Json) (response : UpstreamResponse)
    (hfetch : fetch (upstreamCall reqBody) = Except.ok response)
    (hjson : response.json = Except.ok data) :
    ((upstreamCall reqBody).method = "POST" ∧
      (upstreamCall reqBody).headers = [("Content-Type", "application/json")] ∧
      (upstreamCall reqBody).body = BodyText.stringify reqBody) ∧
    ((postApiPrompts fetch reqBody).res.statusCode = 200 ∧
      (postApiPrompts fetch reqBody).res.body = some data ∧
      (postApiPrompts fetch reqBody).res.headers =
        [("Access-Control-Allow-Origin", "*"),
          ("Access-Control-Allow-Headers", "Origin, X-Requested-With, Content-Type, Accept")]) ∧
    ((postApiPrompts abcUpstream reqBody).res.statusCode = 200 ∧
      (postApiPrompts abcUpstream reqBody).res.body =
        some (Json.object [("id", Json.string "abc")])) := by
  refine ⟨⟨rfl, rfl, rfl⟩, ?_, ⟨rfl, rfl⟩⟩
  unfold postApiPrompts
  rw [tryBlock_of_json fetch reqBody data response hfetch hjson]
  exact ⟨rfl, rfl, rfl⟩

/-- C6 for the upstream answering `\x7b"id":"abc"\x7d` and the request body `\x7b"q":1\x7d`. -/
theorem relay_success_witness :
    (postApiPrompts abcUpstream (Json.object [("q", Json.number "1")])).res.statusCode = 200 ∧
    (postApiPrompts abcUpstream (Json.object [("q", Json.number "1")])).res.body =
      some (Json.object [("id", Json.string "abc")]) ∧
    (postApiPrompts abcUpstream (Json.object [("q", Json.number "1")])).res.headers =
      [("Access-Control-Allow-Origin", "*"),
        ("Access-Control-Allow-Headers", "Origin, X-Requested-With, Content-Type, Accept")] :=
  (relay_success abcUpstream (Json.object [("q", Json.number "1")])
    (Json.object [("id", Json.string "abc")])
    { status := 200, json := Except.ok (Json.object [("id", Json.string "abc")]) } rfl rfl).2.1

end DJS04
